import Mathlib

/-
Verification of the DataMaster-MCP database configuration and query layer.

The Lean definitions below are a shallow embedding of the Python sources:
  - src/superdataanalysis_mcp/config/config_manager.py (ConfigManager)
  - src/config/database_manager.py (DatabaseManager)
  - src/config/api_config_manager.py (APIConfigManager._save_config)
  - src/datamaster_mcp/main.py (_connect_sqlite / _connect_external_database)
Configuration dictionaries are modelled as association lists of JSON-safe
scalar values; backend I/O (driver connect calls, cursors, MongoDB handlers)
is modelled by oracle functions in an environment record, with the
surrounding control flow (security scan, config resolution, dispatch,
scoped connection release, exception-to-result conversion) translated
line by line from the source.
-/

/-- A JSON-safe Python scalar value as stored in a config dict. -/
inductive PyVal where
  | pnone
  | pbool (b : Bool)
  | pint (n : Int)
  | pstr (s : String)
deriving DecidableEq

/-- Python truthiness of a scalar: None, False, 0 and the empty string are falsy. -/
def pyTruthy : PyVal → Bool
  | .pnone => false
  | .pbool b => b
  | .pint n => n != 0
  | .pstr s => s != ""

/-- Display of a scalar inside an f-string style error message. -/
def pyValStr : PyVal → String
  | .pnone => "None"
  | .pbool b => if b then "True" else "False"
  | .pint n => toString n
  | .pstr s => s

/-- A Python dict with string keys, as an association list (first binding wins). -/
abbrev PyDict := List (String × PyVal)

/-- dict.get(k): the first binding of key k, if any. -/
def dictGet (k : String) : PyDict → Option PyVal
  | [] => none
  | (k2, v) :: rest => if k2 = k then some v else dictGet k rest

/-- dict.get(k, default). -/
def dictGetD (d : PyDict) (k : String) (dflt : PyVal) : PyVal :=
  (dictGet k d).getD dflt

/-- dict[k] = v : replace the existing binding or append a new one. -/
def dictSet (d : PyDict) (k : String) (v : PyVal) : PyDict :=
  match d with
  | [] => [(k, v)]
  | (k2, w) :: rest => if k2 = k then (k, v) :: rest else (k2, w) :: dictSet rest k v

/-- One database config is a dict of scalar fields. -/
abbrev Config := PyDict

/-- The in-memory "databases" section: name → config dict. -/
abbrev Store := List (String × Config)

/-- Lookup of a named config in the store. -/
def storeLookup (name : String) : Store → Option Config
  | [] => none
  | (n, c) :: rest => if n = name then some c else storeLookup name rest

/-- databases[name] = config (dict assignment). -/
def storeSet (store : Store) (name : String) (cfg : Config) : Store :=
  match store with
  | [] => [(name, cfg)]
  | (n, c) :: rest =>
    if n = name then (name, cfg) :: rest else (n, c) :: storeSet rest name cfg

/-- del databases[name]. -/
def storeRemove (store : Store) (name : String) : Store :=
  store.filter (fun e => e.1 != name)

/-- ConfigManager.get_database_config: None if the name is absent, None if
config.get("enabled", True) is falsy, otherwise the config itself. -/
def get_database_config (store : Store) (name : String) : Option Config :=
  match storeLookup name store with
  | none => none
  | some config =>
    if pyTruthy (dictGetD config "enabled" (.pbool true)) = false then none
    else some config

/-- The summary view built for one entry by ConfigManager.list_databases:
only the non-sensitive fields, with the defaults used in the source. -/
def summaryOf (config : Config) : PyDict :=
  [("type", dictGetD config "type" .pnone),
   ("description", dictGetD config "description" (.pstr "")),
   ("enabled", dictGetD config "enabled" (.pbool true)),
   ("host", dictGetD config "host" (.pstr "")),
   ("database", dictGetD config "database" (.pstr "")),
   ("file_path", dictGetD config "file_path" (.pstr "")),
   ("is_temporary", dictGetD config "_is_temporary" (.pbool false)),
   ("created_at", dictGetD config "_created_at" .pnone)]

/-- ConfigManager.list_databases: every stored entry mapped to its summary view. -/
def list_databases (store : Store) : List (String × PyDict) :=
  store.map (fun e => (e.1, summaryOf e.2))

/-- The key sequence of every summary entry. -/
def summaryKeys : List String :=
  ["type", "description", "enabled", "host", "database", "file_path",
   "is_temporary", "created_at"]

/-- Overwrite the password field of the named config, leaving the rest alone. -/
def updatePassword (store : Store) (name : String) (v : PyVal) : Store :=
  store.map (fun e => if e.1 = name then (e.1, dictSet e.2 "password" v) else e)

/-- query.upper(): ASCII uppercasing, as Python does on these keyword strings. -/
def pyUpper (s : String) : String :=
  String.mk (s.toList.map Char.toUpper)

/-- query.strip(): drop whitespace from both ends. -/
def pyStrip (s : String) : String :=
  String.mk
    (List.reverse (List.dropWhile Char.isWhitespace
      (List.reverse (List.dropWhile Char.isWhitespace s.toList))))

/-- Left-to-right scan for a contiguous occurrence of needle in hay. -/
def charsContain (needle : List Char) : List Char → Bool
  | [] => needle.isEmpty
  | c :: cs => List.isPrefixOf needle (c :: cs) || charsContain needle cs

/-- Python substring containment: needle in hay. -/
def strContains (hay needle : String) : Bool :=
  charsContain needle.toList hay.toList

/-- Python startswith on strings. -/
def pyStartsWith (s pre : String) : Bool :=
  List.isPrefixOf pre.toList s.toList

/-- The "security" section consulted by DatabaseManager.execute_query. -/
structure SecurityConfig where
  allow_write_operations : Bool
  blocked_keywords : List String
deriving DecidableEq

/-- The blocked-keyword defaults from ConfigManager.get_security_config. -/
def defaultBlockedKeywords : List String :=
  ["DROP", "DELETE", "UPDATE", "INSERT", "ALTER", "CREATE", "TRUNCATE"]

/-- The error message built for a blocked keyword. -/
def secErrMsg (kw : String) : String :=
  "查询包含被禁止的关键字: " ++ kw

/-- The first blocked keyword hit by the scan: the source iterates the
blocked_keywords list and returns on the first keyword contained (as a plain
substring) in query.upper().strip(). -/
def firstBlocked (sec : SecurityConfig) (query : String) : Option String :=
  sec.blocked_keywords.find? (fun kw => strContains (pyStrip (pyUpper query)) kw)

/-- The result dict shape produced by DatabaseManager.execute_query: success
results carry no error key, failure results always carry one. -/
structure QResult where
  success : Bool
  error : Option String
  data : List PyDict
  row_count : Option Nat
  affected_rows : Option Int
deriving DecidableEq

/-- A failure dict as built throughout execute_query. -/
def failRes (msg : String) : QResult :=
  ⟨false, some msg, [], none, none⟩

/-- The environment of one DatabaseManager call: the loaded configuration and
oracles for the backend I/O (driver connect calls, cursor execution, MongoDB
handlers). An oracle returning Except.error models the Python call raising. -/
structure Env where
  security : SecurityConfig
  databases : Store
  openConn : String → Except String Unit
  fetchRows : String → String → Except String (List PyDict)
  runExec : String → String → Except String Int
  mongoRun : String → String → Except String (List PyDict)

/-- Whether the config type dispatches to one of the four backends of
DatabaseManager.get_connection. -/
def isSupportedType (t : PyVal) : Bool :=
  t == .pstr "mysql" || t == .pstr "postgresql" || t == .pstr "mongodb" ||
    t == .pstr "sqlite"

/-- DatabaseManager.get_connection run against a body fn, following the
context-manager protocol: resolve the config (raising if absent), dispatch on
its type, open the backend connection, run the body, and in the finally block
close the connection whenever one was opened. The second component counts
close() calls; connection-constructor failures leave the local variable None,
so nothing is closed on those paths. Body exceptions (fn returning
Except.error) still reach the finally block, so the count is 1 there too. -/
def getConnectionRun {A : Type} (env : Env) (name : String)
    (fn : Unit → Except String A) : Except String A × Nat :=
  match get_database_config env.databases name with
  | none => (Except.error ("数据库配置不存在: " ++ name), 0)
  | some config =>
    match dictGet "type" config with
    | none => (Except.error "KeyError: type", 0)
    | some t =>
      if isSupportedType t then
        match env.openConn name with
        | Except.error e => (Except.error e, 0)
        | Except.ok c => (fn c, 1)
      else (Except.error ("不支持的数据库类型: " ++ pyValStr t), 0)

/-- The body run under get_connection by _execute_sql_query: SELECT-classified
queries fetch rows and report row_count, anything else commits and reports the
rowcount facility value. Cell post-processing keeps JSON-safe scalars as they
are, which all PyVal values already are. -/
def sqlBody (env : Env) (name query : String) : Unit → Except String QResult :=
  fun _ =>
    if pyStartsWith (pyUpper (pyStrip query)) "SELECT" then
      match env.fetchRows name query with
      | Except.error e => Except.error e
      | Except.ok rows => Except.ok ⟨true, none, rows, some rows.length, none⟩
    else
      match env.runExec name query with
      | Except.error e => Except.error e
      | Except.ok rc => Except.ok ⟨true, none, [], none, some rc⟩

/-- DatabaseManager._execute_sql_query: the SQL body under the scoped
connection; exceptions propagate to execute_query's handler. -/
def execute_sql_query (env : Env) (name query : String) :
    Except String QResult × Nat :=
  getConnectionRun env name (sqlBody env name query)

/-- DatabaseManager._execute_mongodb_query: the Mongo handlers run under the
scoped connection, but inside this method's own try/except, so every failure
is already converted to a result dict here. The dispatch over show/db./JSON
query forms is abstracted by the mongoRun oracle; every failure dict the
source builds carries an error message. -/
def execute_mongodb_query (env : Env) (name query : String) : QResult × Nat :=
  let r := getConnectionRun env name (fun _ =>
    match env.mongoRun name query with
    | Except.error e => Except.error e
    | Except.ok rows => Except.ok ⟨true, none, rows, some rows.length, none⟩)
  match r.1 with
  | Except.ok res => (res, r.2)
  | Except.error e => (failRes ("MongoDB 查询失败: " ++ e), r.2)

/-- The part of DatabaseManager.execute_query after the security check: config
resolution, type dispatch, and the top-level except turning any exception into
a failure dict. The second component counts opened connections. -/
def execute_query_dispatch (env : Env) (name query : String) : QResult × Nat :=
  match get_database_config env.databases name with
  | none => (failRes ("数据库配置不存在: " ++ name), 0)
  | some config =>
    match dictGet "type" config with
    | none => (failRes "KeyError: type", 0)
    | some t =>
      if t == .pstr "mysql" || t == .pstr "postgresql" || t == .pstr "sqlite" then
        match execute_sql_query env name query with
        | (Except.ok res, n) => (res, n)
        | (Except.error e, n) => (failRes e, n)
      else if t == .pstr "mongodb" then
        execute_mongodb_query env name query
      else (failRes ("不支持的数据库类型: " ++ pyValStr t), 0)

/-- DatabaseManager.execute_query: when write operations are not allowed, the
blocked-keyword scan runs first and returns before any config resolution or
connection is attempted; otherwise the call proceeds to dispatch. -/
def execute_query (env : Env) (name query : String) : QResult × Nat :=
  if env.security.allow_write_operations = false then
    match firstBlocked env.security query with
    | some kw => (failRes (secErrMsg kw), 0)
    | none => execute_query_dispatch env name query
  else execute_query_dispatch env name query

/-- The temp-config branch shared by _connect_sqlite and
_connect_external_database in main.py: the config dict (already carrying
_is_temporary=True) is stored via add_database_config, whose in-memory
assignment happens before its save; addOk is whether that save succeeded
(the returned bool). On addOk, test_connection runs: on failure the temp
config is removed (the in-memory del happens even if the removal save then
raises) before the error result is returned; on success the config stays.
On not addOk the flow returns an error without testing. Returns the final
in-memory store and whether the connect reported success. -/
def connect_temp_flow (store : Store) (tempName : String) (cfg : Config)
    (addOk : Bool) (testOk : Bool) : Store × Bool :=
  let store1 := storeSet store tempName cfg
  if addOk then
    if testOk then (store1, true)
    else (storeRemove store1 tempName, false)
  else (store1, false)

/-- A config file on disk: absent, valid serialized content, or a partial /
truncated write. -/
inductive FileState where
  | absent
  | valid (content : String)
  | corrupt
deriving DecidableEq

/-- path.exists() on a modelled file: anything but absent is on disk. -/
def fileExists : FileState → Bool
  | .absent => false
  | .valid _ => true
  | .corrupt => true

/-- The two paths a save touches: the config file and its .bak sibling. -/
structure SaveFS where
  config : FileState
  backup : FileState
deriving DecidableEq

/-- Whether at least one valid config file is on disk. -/
def hasValidFile (fs : SaveFS) : Bool :=
  (match fs.config with | .valid _ => true | _ => false) ||
    (match fs.backup with | .valid _ => true | _ => false)

/-- ConfigManager._save_config (the database-config store): open(path, w)
truncates and json.dump writes in place; no backup is taken. writeOk false
models the dump raising mid-write, which leaves a truncated/partial file. The
bool is whether the save returned without raising. -/
def cm_save_config (fs : SaveFS) (newContent : String) (writeOk : Bool) :
    SaveFS × Bool :=
  if writeOk then (SaveFS.mk (.valid newContent) fs.backup, true)
  else (SaveFS.mk .corrupt fs.backup, false)

/-- APIConfigManager._save_config, as the sequence of intermediate disk
states: rename config.json to config.json.bak when it exists, write the new
content (a failed write leaves a partial file), then delete the backup on
success or restore it over the config path on failure. -/
def api_save_config_trace (fs : SaveFS) (newContent : String) (writeOk : Bool) :
    List SaveFS :=
  let fs1 := if fileExists fs.config then SaveFS.mk .absent fs.config else fs
  let fsMid := SaveFS.mk .corrupt fs1.backup
  if writeOk then
    let fs2 := SaveFS.mk (.valid newContent) fs1.backup
    let fs3 := SaveFS.mk fs2.config .absent
    [fs1, fsMid, fs2, fs3]
  else
    let fs2 := SaveFS.mk .corrupt fs1.backup
    let fs3 := if fileExists fs2.backup then SaveFS.mk fs2.backup .absent else fs2
    [fs1, fsMid, fs2, fs3]

/-- A keyword argument value at a driver connect call site. -/
inductive ArgV where
  | num (n : Nat)
  | boolLit (b : Bool)
  | strLit (s : String)
  | fromCfg (field : String)
  | cfgOrNum (field : String) (dflt : Nat)
  | cfgOrStr (field : String) (dflt : String)
  | exprRef (desc : String)
deriving DecidableEq

/-- Keyword arguments of the pymysql connect call in _test_mysql_connection. -/
def test_mysql_pymysql_args : List (String × ArgV) :=
  [("host", .fromCfg "host"), ("port", .cfgOrNum "port" 3306),
   ("user", .exprRef "username"), ("password", .fromCfg "password"),
   ("database", .fromCfg "database"), ("charset", .cfgOrStr "charset" "utf8mb4"),
   ("connect_timeout", .num 10)]

/-- Keyword arguments of the mysql.connector connect call in
_test_mysql_connection. -/
def test_mysql_connector_args : List (String × ArgV) :=
  [("host", .fromCfg "host"), ("port", .cfgOrNum "port" 3306),
   ("user", .exprRef "username"), ("password", .fromCfg "password"),
   ("database", .fromCfg "database"), ("charset", .cfgOrStr "charset" "utf8mb4"),
   ("connection_timeout", .num 10)]

/-- Keyword arguments of the pymysql connect call in _get_mysql_connection. -/
def get_mysql_pymysql_args : List (String × ArgV) :=
  [("host", .fromCfg "host"), ("port", .cfgOrNum "port" 3306),
   ("user", .exprRef "username"), ("password", .fromCfg "password"),
   ("database", .fromCfg "database"), ("charset", .cfgOrStr "charset" "utf8mb4"),
   ("cursorclass", .exprRef "DictCursor")]

/-- Keyword arguments of the mysql.connector connect call in
_get_mysql_connection. -/
def get_mysql_connector_args : List (String × ArgV) :=
  [("host", .fromCfg "host"), ("port", .cfgOrNum "port" 3306),
   ("user", .exprRef "username"), ("password", .fromCfg "password"),
   ("database", .fromCfg "database"), ("charset", .cfgOrStr "charset" "utf8mb4"),
   ("autocommit", .boolLit true)]

/-- Keyword arguments of the psycopg2 connect call in
_test_postgresql_connection. -/
def test_postgresql_args : List (String × ArgV) :=
  [("host", .fromCfg "host"), ("port", .cfgOrNum "port" 5432),
   ("user", .exprRef "username"), ("password", .fromCfg "password"),
   ("database", .fromCfg "database"), ("connect_timeout", .num 10)]

/-- Keyword arguments of the psycopg2 connect call in
_get_postgresql_connection. -/
def get_postgresql_args : List (String × ArgV) :=
  [("host", .fromCfg "host"), ("port", .cfgOrNum "port" 5432),
   ("user", .exprRef "username"), ("password", .fromCfg "password"),
   ("database", .fromCfg "database")]

/-- Keyword arguments of sqlite3.connect in _test_sqlite_connection. -/
def test_sqlite_args : List (String × ArgV) :=
  [("timeout", .num 10)]

/-- Keyword arguments of sqlite3.connect in _get_sqlite_connection. -/
def get_sqlite_args : List (String × ArgV) := []

/-- Keyword arguments of pymongo.MongoClient in _test_mongodb_connection. -/
def test_mongodb_args : List (String × ArgV) :=
  [("serverSelectionTimeoutMS", .num 10000)]

/-- Keyword arguments of pymongo.MongoClient in _get_mongodb_connection. -/
def get_mongodb_args : List (String × ArgV) := []

/-- The timeout-style keyword names accepted by the four drivers. -/
def timeoutKeys : List String :=
  ["connect_timeout", "connection_timeout", "timeout", "serverSelectionTimeoutMS"]

/-- Whether a connect call passes any timeout-style keyword argument. -/
def hasTimeoutArg (args : List (String × ArgV)) : Bool :=
  args.any (fun a => timeoutKeys.contains a.1)

/-- One step of re.findall matching at a position just after a dollar-brace:
takes the maximal nonempty run of non-closing-brace characters followed by the
closing brace, returning the captured name and the rest of the input. -/
def takeVar (cs : List Char) : Option (List Char × List Char) :=
  let content := cs.takeWhile (fun c => !(c = '\x7d'))
  match content with
  | [] => none
  | _ =>
    match cs.dropWhile (fun c => !(c = '\x7d')) with
    | [] => none
    | _ :: rest => some (content, rest)

/-- The scan of re.findall over the pattern dollar-brace-name-brace, with a
structural fuel argument so the definition reduces by computation: walk the
string left to right; at a dollar immediately followed by an opening brace,
capture up to the first closing brace (at least one character) and continue
after it; otherwise advance one character. Every step consumes at least one
character, so fuel equal to the input length is always sufficient. -/
def findVarsF : Nat → List Char → List (List Char)
  | _, [] => []
  | 0, _ => []
  | fuel + 1, c :: cs =>
    if c = '$' then
      match cs with
      | '\x7b' :: cs2 =>
        match takeVar cs2 with
        | some (v, rest) => v :: findVarsF fuel rest
        | none => findVarsF fuel ('\x7b' :: cs2)
      | cs3 => findVarsF fuel cs3
    else findVarsF fuel cs

/-- The full findall scan over a string. -/
def findVars (cs : List Char) : List (List Char) :=
  findVarsF cs.length cs

/-- Python str.replace(old, new) with a structural fuel argument (fuel equal
to the input length is always sufficient): replace every non-overlapping
occurrence of old, scanning left to right (old is never empty at the call
sites below). -/
def replaceAllF (old new : List Char) : Nat → List Char → List Char
  | _, [] => []
  | 0, s => s
  | fuel + 1, c :: cs =>
    if List.isPrefixOf old (c :: cs) then
      new ++ replaceAllF old new fuel (cs.drop (old.length - 1))
    else c :: replaceAllF old new fuel cs

/-- Python str.replace(old, new) over a whole string. -/
def replaceAll (old new s : List Char) : List Char :=
  replaceAllF old new s.length s

/-- The substitution pass of ConfigManager._resolve_environment_variables on
one string: collect the env-var references with findVars, then for each one
in order replace every occurrence of its dollar-brace form by the value of
the environment variable (empty string when unset): env models
os.getenv(name, empty). -/
def resolveString (env : List Char → List Char) (s : List Char) : List Char :=
  (findVars s).foldl
    (fun acc v => replaceAll ('$' :: '\x7b' :: (v ++ ['\x7d'])) (env v) acc) s

mutual
/-- A JSON configuration document: strings, arrays, objects, and other
scalars, mirroring the dict/list/str walk of replace_env_vars. -/
inductive JVal where
  | jstr (s : List Char)
  | jarr (xs : JList)
  | jobj (kvs : JObj)
  | jatom
inductive JList where
  | lnil
  | lcons (x : JVal) (xs : JList)
inductive JObj where
  | onil
  | ocons (k : String) (v : JVal) (rest : JObj)
end

mutual
/-- replace_env_vars: recursively rebuild dicts and lists, substitute inside
strings, and return every other value unchanged. -/
def resolveDoc (env : List Char → List Char) : JVal → JVal
  | .jstr s => .jstr (resolveString env s)
  | .jarr xs => .jarr (resolveJList env xs)
  | .jobj kvs => .jobj (resolveJObj env kvs)
  | .jatom => .jatom
def resolveJList (env : List Char → List Char) : JList → JList
  | .lnil => .lnil
  | .lcons x xs => .lcons (resolveDoc env x) (resolveJList env xs)
def resolveJObj (env : List Char → List Char) : JObj → JObj
  | .onil => .onil
  | .ocons k v rest => .ocons k (resolveDoc env v) (resolveJObj env rest)
end

mutual
/-- No string anywhere in the document still matches the env-var pattern. -/
def noPlaceholderDoc : JVal → Bool
  | .jstr s => (findVars s).isEmpty
  | .jarr xs => noPlaceholderJList xs
  | .jobj kvs => noPlaceholderJObj kvs
  | .jatom => true
def noPlaceholderJList : JList → Bool
  | .lnil => true
  | .lcons x xs => noPlaceholderDoc x && noPlaceholderJList xs
def noPlaceholderJObj : JObj → Bool
  | .onil => true
  | .ocons _ v rest => noPlaceholderDoc v && noPlaceholderJObj rest
end

/-- Word characters for a whole-word keyword match. -/
def isWordChar (c : Char) : Bool := c.isAlphanum || c = '_'

/-- Split a character list into its maximal word-character runs, with a
structural fuel argument (fuel equal to the input length always suffices). -/
def splitWordsF : Nat → List Char → List (List Char)
  | _, [] => []
  | 0, _ => []
  | fuel + 1, c :: cs =>
    if isWordChar c then
      (c :: cs.takeWhile isWordChar) :: splitWordsF fuel (cs.dropWhile isWordChar)
    else splitWordsF fuel cs

/-- Split a character list into its maximal word-character runs. -/
def splitWords (cs : List Char) : List (List Char) :=
  splitWordsF cs.length cs

/-- Modelled from the spec: the whole-word blocked-keyword match the spec
describes for the query gate (a keyword counts only when it appears as a
whole word of the uppercased query, not inside a longer identifier). Stated
here only to compare the spec contract with the substring scan of the code. -/
def specWholeWordMatch (blocked : List String) (query : String) : Bool :=
  blocked.any (fun kw =>
    List.contains (splitWords (pyStrip (pyUpper query)).toList) kw.toList)

/-- The security defaults of get_security_config: writes disallowed, the
default blocked keywords. -/
def secDefault : SecurityConfig := ⟨false, defaultBlockedKeywords⟩

/-- A minimal enabled sqlite config. -/
def cfgSqlite1 : Config := [("type", .pstr "sqlite"), ("file_path", .pstr "data.db")]

/-- A concrete environment: one sqlite config, default security, and backend
oracles that always succeed trivially. -/
def envC1 : Env :=
  ⟨secDefault, [("db1", cfgSqlite1)], fun _ => Except.ok (),
    fun _ _ => Except.ok [], fun _ _ => Except.ok 0, fun _ _ => Except.ok []⟩

/-- A concrete environment with an empty store and default security. -/
def envC6 : Env :=
  ⟨secDefault, [], fun _ => Except.ok (),
    fun _ _ => Except.ok [], fun _ _ => Except.ok 0, fun _ _ => Except.ok []⟩

/-- The environment-variable lookup with every variable unset, so every
reference resolves to the empty string, as os.getenv(name, empty) does. -/
def envNoVars : List Char → List Char := fun _ => []

/-- The document whose single string is dollar dollar-brace X brace
brace Y brace: resolving it once substitutes the X reference and leaves a
freshly formed Y reference behind. -/
def docTricky : JVal :=
  .jstr ['$', '$', '\x7b', 'X', '\x7d', '\x7b', 'Y', '\x7d']

/-- A document whose single string resolves in one pass with nothing left. -/
def docSimple : JVal := .jstr ['a', '$', '\x7b', 'A', '\x7d', 'b']

/-- The summary-shape check: the keys are exactly the eight summary keys, and
neither password nor token is among them. -/
def checkSummary (d : PyDict) : Bool :=
  (d.map Prod.fst == summaryKeys) &&
    !(List.contains (d.map Prod.fst) "password") &&
    !(List.contains (d.map Prod.fst) "token")

/-- A config whose enabled field is the integer zero (a JSON-representable
value that is falsy in Python without being the boolean false). -/
def cfgEnabledZero : Config := [("type", .pstr "sqlite"), ("enabled", .pint 0)]

/-- A store holding only the enabled-zero config. -/
def storeC10 : Store := [("db", cfgEnabledZero)]

theorem dictGet_dictSet_ne (d : PyDict) (k : String) (v : PyVal) (k2 : String)
    (hne : k2 ≠ k) : dictGet k2 (dictSet d k v) = dictGet k2 d := by
  induction d with
  | nil => simp [dictSet, dictGet, Ne.symm hne]
  | cons e rest ih =>
    obtain ⟨ke, ve⟩ := e
    by_cases hk : ke = k
    · subst hk
      simp [dictSet, dictGet, Ne.symm hne]
    · simp [dictSet, dictGet, hk, ih]

theorem summaryOf_dictSet_password (cfg : Config) (v : PyVal) :
    summaryOf (dictSet cfg "password" v) = summaryOf cfg := by
  have h1 := dictGet_dictSet_ne cfg "password" v "type" (by decide)
  have h2 := dictGet_dictSet_ne cfg "password" v "description" (by decide)
  have h3 := dictGet_dictSet_ne cfg "password" v "enabled" (by decide)
  have h4 := dictGet_dictSet_ne cfg "password" v "host" (by decide)
  have h5 := dictGet_dictSet_ne cfg "password" v "database" (by decide)
  have h6 := dictGet_dictSet_ne cfg "password" v "file_path" (by decide)
  have h7 := dictGet_dictSet_ne cfg "password" v "_is_temporary" (by decide)
  have h8 := dictGet_dictSet_ne cfg "password" v "_created_at" (by decide)
  simp only [summaryOf, dictGetD, h1, h2, h3, h4, h5, h6, h7, h8]

theorem checkSummary_summaryOf (cfg : Config) :
    checkSummary (summaryOf cfg) = true := rfl

theorem storeLookup_storeSet_self (store : Store) (name : String) (cfg : Config) :
    storeLookup name (storeSet store name cfg) = some cfg := by
  induction store with
  | nil => simp [storeSet, storeLookup]
  | cons e rest ih =>
    obtain ⟨n, c⟩ := e
    by_cases hn : n = name
    · subst hn
      simp [storeSet, storeLookup]
    · simp [storeSet, storeLookup, hn, ih]

theorem storeRemove_all_ne (store : Store) (name : String) :
    (storeRemove store name).all (fun e => e.1 != name) = true := by
  induction store with
  | nil => rfl
  | cons e rest ih =>
    by_cases hne : (e.1 != name) = true
    · simpa [storeRemove, List.filter_cons, hne, List.all_cons] using ih
    · simpa [storeRemove, List.filter_cons, hne] using ih

theorem list_databases_all_keys (store : Store) (p : String → Bool) :
    (list_databases store).all (fun e => p e.1) = store.all (fun e => p e.1) := by
  induction store with
  | nil => rfl
  | cons e rest ih =>
    simp only [list_databases, List.map_cons, List.all_cons] at ih ⊢
    rw [ih]

theorem sqlBody_ok (env : Env) (name query : String) (c : Unit) (res : QResult)
    (h : sqlBody env name query c = Except.ok res) :
    res.success = true ∧ res.error = none := by
  unfold sqlBody at h
  split at h
  · split at h
    · exact absurd h (by simp)
    · simp only [Except.ok.injEq] at h
      subst h
      exact ⟨rfl, rfl⟩
  · split at h
    · exact absurd h (by simp)
    · simp only [Except.ok.injEq] at h
      subst h
      exact ⟨rfl, rfl⟩

theorem execute_sql_query_ok (env : Env) (name query : String) (res : QResult)
    (n : Nat) (h : execute_sql_query env name query = (Except.ok res, n)) :
    res.success = true ∧ res.error = none := by
  unfold execute_sql_query getConnectionRun at h
  split at h
  · exact absurd h (by simp)
  · split at h
    · exact absurd h (by simp)
    · split at h
      · split at h
        · exact absurd h (by simp)
        · simp only [Prod.mk.injEq] at h
          exact sqlBody_ok env name query _ res h.1
      · exact absurd h (by simp)

theorem execute_mongodb_query_ok (env : Env) (name query : String) :
    ((execute_mongodb_query env name query).1.success ||
      (execute_mongodb_query env name query).1.error.isSome) = true := by
  unfold execute_mongodb_query getConnectionRun
  split
  · rfl
  · split
    · rfl
    · split
      · split
        · rfl
        · split
          · rfl
          · rfl
      · rfl

theorem execute_query_dispatch_ok (env : Env) (name query : String) :
    ((execute_query_dispatch env name query).1.success ||
      (execute_query_dispatch env name query).1.error.isSome) = true := by
  unfold execute_query_dispatch
  split
  · rfl
  · split
    · rfl
    · split
      · rcases hq : execute_sql_query env name query with ⟨r, n⟩
        rcases r with e | res
        · simp [hq, failRes]
        · have hok := execute_sql_query_ok env name query res n hq
          simp [hq, hok.1]
      · split
        · exact execute_mongodb_query_ok env name query
        · rfl

mutual
theorem resolveDoc_fixed (env : List Char → List Char) :
    (d : JVal) → noPlaceholderDoc d = true → resolveDoc env d = d
  | .jstr s, h => by
    have hs : findVars s = [] := by
      have h2 : (findVars s).isEmpty = true := h
      exact List.isEmpty_iff.mp h2
    simp only [resolveDoc, resolveString, hs, List.foldl_nil]
  | .jarr xs, h => congrArg JVal.jarr (resolveJList_fixed env xs h)
  | .jobj kvs, h => congrArg JVal.jobj (resolveJObj_fixed env kvs h)
  | .jatom, _ => rfl
theorem resolveJList_fixed (env : List Char → List Char) :
    (xs : JList) → noPlaceholderJList xs = true → resolveJList env xs = xs
  | .lnil, _ => rfl
  | .lcons x xs, h => by
    have h2 : noPlaceholderDoc x = true ∧ noPlaceholderJList xs = true := by
      have h3 : (noPlaceholderDoc x && noPlaceholderJList xs) = true := h
      exact ⟨(Bool.and_eq_true _ _).mp h3 |>.1, (Bool.and_eq_true _ _).mp h3 |>.2⟩
    simp only [resolveJList]
    rw [resolveDoc_fixed env x h2.1, resolveJList_fixed env xs h2.2]
theorem resolveJObj_fixed (env : List Char → List Char) :
    (kvs : JObj) → noPlaceholderJObj kvs = true → resolveJObj env kvs = kvs
  | .onil, _ => rfl
  | .ocons k v rest, h => by
    have h2 : noPlaceholderDoc v = true ∧ noPlaceholderJObj rest = true := by
      have h3 : (noPlaceholderDoc v && noPlaceholderJObj rest) = true := h
      exact ⟨(Bool.and_eq_true _ _).mp h3 |>.1, (Bool.and_eq_true _ _).mp h3 |>.2⟩
    simp only [resolveJObj]
    rw [resolveDoc_fixed env v h2.1, resolveJObj_fixed env rest h2.2]
end

/-- C1 (amended): with allow_write_operations=false, whenever the
blocked-keyword scan finds a keyword — the first one contained as a plain
substring of the uppercased, stripped query — execute_query returns
success=false naming that keyword, and no connection is opened; the scan is
substring-based, so a keyword inside a longer identifier is also rejected. -/
theorem execute_query_security_substring_scan (env : Env) (name query kw : String)
    (hallow : env.security.allow_write_operations = false)
    (hfb : firstBlocked env.security query = some kw) :
    kw ∈ env.security.blocked_keywords ∧
      strContains (pyStrip (pyUpper query)) kw = true ∧
      execute_query env name query = (failRes (secErrMsg kw), 0) := by
  refine ⟨List.mem_of_find?_eq_some hfb, List.find?_some hfb, ?_⟩
  simp only [execute_query, hallow, if_true, hfb]

/-- The security theorem applied at a concrete blocked query: the DROP
statement is rejected with DROP named and zero connections opened. -/
theorem execute_query_security_substring_scan_witness :
    ("DROP" : String) ∈ envC1.security.blocked_keywords ∧
      strContains (pyStrip (pyUpper "DROP TABLE users")) "DROP" = true ∧
      execute_query envC1 "db1" "DROP TABLE users" =
        (failRes (secErrMsg "DROP"), 0) :=
  execute_query_security_substring_scan envC1 "db1" "DROP TABLE users" "DROP"
    rfl (by decide)

/-- C1 counterexample: in the query SELECT * FROM UPDATED_RECORDS no blocked
keyword occurs as a whole word, yet execute_query rejects it naming UPDATE
(which occurs only inside the identifier UPDATED_RECORDS), refuting the
whole-word clause of the claim. -/
theorem execute_query_wholeword_counterexample :
    specWholeWordMatch defaultBlockedKeywords "SELECT * FROM UPDATED_RECORDS" = false ∧
    execute_query envC1 "db1" "SELECT * FROM UPDATED_RECORDS" =
      (failRes (secErrMsg "UPDATE"), 0) := by
  exact ⟨by decide, by decide⟩

/-- C5: execute_query is total at its interface — it is a plain function into
result dicts, with every raisable step modelled in Except and caught — and
every result either reports success or carries an error message. -/
theorem execute_query_total (env : Env) (name query : String) :
    ((execute_query env name query).1.success ||
      (execute_query env name query).1.error.isSome) = true := by
  unfold execute_query
  split
  · split
    · rfl
    · exact execute_query_dispatch_ok env name query
  · exact execute_query_dispatch_ok env name query

/-- C6 (amended): for a config name absent from the store, execute_query
returns the config-not-found failure exactly on the queries that pass the
blocked-keyword scan (or when writes are allowed); the security scan runs
first, so a blocked query yields the security error even for absent names. -/
theorem execute_query_absent_config (env : Env) (name query : String)
    (habs : storeLookup name env.databases = none)
    (hpass : env.security.allow_write_operations = true ∨
      firstBlocked env.security query = none) :
    execute_query env name query = (failRes ("数据库配置不存在: " ++ name), 0) := by
  have hg : get_database_config env.databases name = none := by
    simp [get_database_config, habs]
  unfold execute_query
  by_cases ha : env.security.allow_write_operations = false
  · rw [if_pos ha]
    rcases hpass with h | h
    · rw [ha] at h
      exact absurd h (by decide)
    · rw [h]
      unfold execute_query_dispatch
      rw [hg]
  · rw [if_neg ha]
    unfold execute_query_dispatch
    rw [hg]

/-- The absent-config theorem applied at a concrete input: a clean SELECT
against a name not in the store yields the config-not-found failure. -/
theorem execute_query_absent_config_witness :
    execute_query envC6 "missing" "SELECT 1" =
      (failRes ("数据库配置不存在: " ++ "missing"), 0) :=
  execute_query_absent_config envC6 "missing" "SELECT 1" rfl (Or.inr (by decide))

/-- C6 counterexample: with the default security policy and an empty store,
a DROP query against an absent name returns the security-violation error,
not the config-not-found failure, because the scan precedes resolution. -/
theorem execute_query_absent_config_counterexample :
    storeLookup "missing" envC6.databases = none ∧
    execute_query envC6 "missing" "DROP TABLE x" = (failRes (secErrMsg "DROP"), 0) ∧
    execute_query envC6 "missing" "DROP TABLE x" ≠
      (failRes ("数据库配置不存在: " ++ "missing"), 0) := by
  refine ⟨rfl, by decide, by decide⟩

/-- C2: in the temp-config connect flow, once the config was added (add
returned True), a failed connection test removes the name before the error
is surfaced, so the database listing no longer contains it; a successful
test leaves the config in the store under its name. -/
theorem connect_temp_flow_cleanup (store : Store) (name : String) (cfg : Config)
    (addOk testOk : Bool) (haddOk : addOk = true) :
    (testOk = false →
      ((list_databases (connect_temp_flow store name cfg addOk testOk).1).all
        (fun e => e.1 != name)) = true) ∧
    (testOk = true →
      storeLookup name (connect_temp_flow store name cfg addOk testOk).1 =
        some cfg) := by
  subst haddOk
  constructor
  · intro ht
    subst ht
    show (list_databases (storeRemove (storeSet store name cfg) name)).all
      (fun e => e.1 != name) = true
    rw [list_databases_all_keys (storeRemove (storeSet store name cfg) name)
      (fun x => x != name)]
    exact storeRemove_all_ne (storeSet store name cfg) name
  · intro ht
    subst ht
    exact storeLookup_storeSet_self store name cfg

/-- The cleanup theorem at a concrete temp config: after a failed test the
listing has no entry under the temp name, after a successful one the config
is still found under it. -/
theorem connect_temp_flow_cleanup_witness :
    ((list_databases (connect_temp_flow [] "temp_sqlite_20250101" cfgSqlite1
        true false).1).all (fun e => e.1 != "temp_sqlite_20250101")) = true ∧
    storeLookup "temp_sqlite_20250101"
      (connect_temp_flow [] "temp_sqlite_20250101" cfgSqlite1 true true).1 =
        some cfgSqlite1 :=
  ⟨(connect_temp_flow_cleanup [] "temp_sqlite_20250101" cfgSqlite1 true false
      rfl).1 rfl,
   (connect_temp_flow_cleanup [] "temp_sqlite_20250101" cfgSqlite1 true true
      rfl).2 rfl⟩

/-- C3: DatabaseManager.get_connection releases on every exit path: whenever
the config resolves, the type is supported and the backend constructor
succeeds, the scoped run closes the connection exactly once and returns the
body outcome unchanged — for a normally returning body and equally for a
body that raises (fn returning Except.error). -/
theorem get_connection_releases (A : Type) (env : Env) (name : String)
    (fn : Unit → Except String A) (cfg : Config) (t : PyVal)
    (h1 : get_database_config env.databases name = some cfg)
    (h2 : dictGet "type" cfg = some t)
    (h3 : isSupportedType t = true)
    (h4 : env.openConn name = Except.ok ()) :
    getConnectionRun env name fn = (fn (), 1) := by
  simp [getConnectionRun, h1, h2, h3, h4]

/-- The release theorem at a concrete input whose body raises: the exception
is propagated and the connection is still closed once. -/
theorem get_connection_releases_witness :
    getConnectionRun envC1 "db1"
        (fun _ => (Except.error "boom" : Except String Nat)) =
      (Except.error "boom", 1) :=
  get_connection_releases Nat envC1 "db1" _ cfgSqlite1 (.pstr "sqlite")
    rfl rfl rfl rfl

/-- C4 (amended): APIConfigManager._save_config follows the backup protocol —
rename the config file to its .bak sibling, write, delete the backup on
success, restore it on failure — so starting from a valid config file every
intermediate state of a save keeps at least one valid file on disk; the
database-config ConfigManager._save_config, by contrast, writes in place
with no backup (see the counterexample). -/
theorem api_save_config_keeps_valid_file (fs : SaveFS) (newContent : String)
    (writeOk : Bool) (c : String) (hc : fs.config = FileState.valid c) :
    (api_save_config_trace fs newContent writeOk).all hasValidFile = true := by
  obtain ⟨fc, fb⟩ := fs
  have hc2 : fc = FileState.valid c := hc
  subst hc2
  cases writeOk <;> rfl

/-- The backup protocol at a concrete failed save: every intermediate state
still holds a valid file. -/
theorem api_save_config_keeps_valid_file_witness :
    (api_save_config_trace (SaveFS.mk (FileState.valid "old") FileState.absent)
        "new" false).all hasValidFile = true :=
  api_save_config_keeps_valid_file
    (SaveFS.mk (FileState.valid "old") FileState.absent) "new" false "old" rfl

/-- C4 counterexample: the database-config ConfigManager._save_config takes
no backup, so a save that starts from a valid config file and fails
mid-write ends with zero valid config files on disk. -/
theorem cm_save_config_counterexample :
    hasValidFile (SaveFS.mk (FileState.valid "old") FileState.absent) = true ∧
    (cm_save_config (SaveFS.mk (FileState.valid "old") FileState.absent)
        "new" false).2 = false ∧
    hasValidFile (cm_save_config (SaveFS.mk (FileState.valid "old")
        FileState.absent) "new" false).1 = false := by
  exact ⟨rfl, rfl, rfl⟩

/-- C7 (amended): the environment-variable substitution pass is idempotent on
every document whose once-resolved form contains no remaining dollar-brace
placeholder; in general a substituted value (or the text surrounding a
removed reference) can form a fresh placeholder that only a second pass
would substitute, so unconditional idempotence fails (see the
counterexample). -/
theorem resolve_env_vars_idempotent_on_resolved (env : List Char → List Char)
    (d : JVal) (h : noPlaceholderDoc (resolveDoc env d) = true) :
    resolveDoc env (resolveDoc env d) = resolveDoc env d :=
  resolveDoc_fixed env (resolveDoc env d) h

/-- The conditional idempotence theorem at a concrete document: one reference
to an unset variable disappears in one pass and a second pass changes
nothing. -/
theorem resolve_env_vars_idempotent_on_resolved_witness :
    noPlaceholderDoc (resolveDoc envNoVars docSimple) = true ∧
    resolveDoc envNoVars (resolveDoc envNoVars docSimple) =
      resolveDoc envNoVars docSimple :=
  ⟨rfl, resolve_env_vars_idempotent_on_resolved envNoVars docSimple rfl⟩

/-- C7 counterexample: with every variable unset, resolving the document
whose string is dollar dollar-brace X brace brace Y brace once yields the
string dollar-brace Y brace, and resolving twice yields the empty string, so
one pass and two passes disagree. -/
theorem resolve_env_vars_not_idempotent :
    resolveDoc envNoVars docTricky = JVal.jstr ['$', '\x7b', 'Y', '\x7d'] ∧
    resolveDoc envNoVars (resolveDoc envNoVars docTricky) = JVal.jstr [] ∧
    resolveDoc envNoVars (resolveDoc envNoVars docTricky) ≠
      resolveDoc envNoVars docTricky := by
  refine ⟨rfl, rfl, ?_⟩
  intro hcontra
  rw [show resolveDoc envNoVars (resolveDoc envNoVars docTricky) =
      JVal.jstr [] from rfl,
    show resolveDoc envNoVars docTricky =
      JVal.jstr ['$', '\x7b', 'Y', '\x7d'] from rfl] at hcontra
  rw [JVal.jstr.injEq] at hcontra
  exact absurd hcontra (by decide)

/-- C8: the list_databases summary never carries a password or token field —
every entry has exactly the eight fixed summary keys — and consequently two
stores differing only in some config's password value produce identical
list_databases output. -/
theorem list_databases_redacts_password (store : Store) (name : String)
    (v : PyVal) :
    ((list_databases store).all (fun e => checkSummary e.2)) = true ∧
    list_databases (updatePassword store name v) = list_databases store := by
  constructor
  · rw [List.all_eq_true]
    intro e he
    rw [list_databases] at he
    rcases List.mem_map.mp he with ⟨e0, he0, rfl⟩
    exact checkSummary_summaryOf e0.2
  · unfold list_databases updatePassword
    rw [List.map_map]
    apply List.map_congr_left
    intro e he
    by_cases hn : e.1 = name
    · simp [hn, Function.comp, summaryOf_dictSet_password]
    · simp [hn, Function.comp]

/-- C10 (amended): a stored config that lacks the enabled field entirely is
treated as enabled — get_database_config returns it and list_databases
summarizes it with enabled=true — and get_database_config returns None
exactly when the name is absent or the stored enabled value is falsy in the
Python sense (false, 0, the empty string or null), not only on an explicit
false (see the counterexample). -/
theorem get_database_config_enabled_default (store : Store) (name : String) :
    (∀ cfg, storeLookup name store = some cfg →
      dictGet "enabled" cfg = none →
      get_database_config store name = some cfg ∧
        dictGet "enabled" (summaryOf cfg) = some (.pbool true)) ∧
    (get_database_config store name = none ↔
      storeLookup name store = none ∨
        ∃ cfg, storeLookup name store = some cfg ∧
          pyTruthy (dictGetD cfg "enabled" (.pbool true)) = false) := by
  constructor
  · intro cfg h1 h2
    constructor
    · simp [get_database_config, h1, dictGetD, h2, pyTruthy]
    · simp [summaryOf, dictGet, dictGetD, h2]
  · unfold get_database_config
    cases hl : storeLookup name store with
    | none => simp
    | some cfg =>
      by_cases hp : pyTruthy (dictGetD cfg "enabled" (.pbool true)) = false
      · simp [hp]
      · simp [hp]

/-- The enabled-default theorem at a concrete config with no enabled field:
it is returned by get_database_config and summarized as enabled. -/
theorem get_database_config_enabled_default_witness :
    get_database_config [("d", cfgSqlite1)] "d" = some cfgSqlite1 ∧
      dictGet "enabled" (summaryOf cfgSqlite1) = some (.pbool true) :=
  (get_database_config_enabled_default [("d", cfgSqlite1)] "d").1
    cfgSqlite1 rfl rfl

/-- C10 counterexample: a present config whose enabled value is the integer
zero — not the boolean false and not absent — still makes
get_database_config return None, refuting the claim that None arises only
for explicit false or an absent name. -/
theorem get_database_config_falsy_counterexample :
    storeLookup "db" storeC10 = some cfgEnabledZero ∧
    dictGet "enabled" cfgEnabledZero = some (.pint 0) ∧
    PyVal.pint 0 ≠ PyVal.pbool false ∧
    get_database_config storeC10 "db" = none := by
  exact ⟨rfl, rfl, by decide, rfl⟩

/-- C9 (amended): the connection-test helpers pass a bounded connect timeout
to every backend driver (connect_timeout=10 for pymysql and psycopg2,
connection_timeout=10 for mysql.connector, timeout=10 for sqlite3, and
serverSelectionTimeoutMS=10000 for pymongo), while the get_connection
per-backend constructors pass no timeout-style argument at all. -/
theorem connect_timeout_test_only :
    test_mysql_pymysql_args.contains ("connect_timeout", ArgV.num 10) = true ∧
    test_mysql_connector_args.contains ("connection_timeout", ArgV.num 10) = true ∧
    test_postgresql_args.contains ("connect_timeout", ArgV.num 10) = true ∧
    test_sqlite_args.contains ("timeout", ArgV.num 10) = true ∧
    test_mongodb_args.contains ("serverSelectionTimeoutMS", ArgV.num 10000) = true ∧
    hasTimeoutArg get_mysql_pymysql_args = false ∧
    hasTimeoutArg get_mysql_connector_args = false ∧
    hasTimeoutArg get_postgresql_args = false ∧
    hasTimeoutArg get_sqlite_args = false ∧
    hasTimeoutArg get_mongodb_args = false := by
  decide

/-- C9 counterexample: none of the get_connection per-backend constructors
passes any timeout-style keyword argument to its driver, refuting the claim
that connection acquisition applies a bounded connect timeout. -/
theorem get_connection_no_timeout_counterexample :
    hasTimeoutArg get_mysql_pymysql_args = false ∧
    hasTimeoutArg get_postgresql_args = false := by
  decide
